import Mathlib

/-!
Verification of the SeeSaw MFSES v5.1 core against its specification.

This file gives a shallow embedding of the parts of the repository that the
claims are about:

* the PostgreSQL schema `src/supabase/schema.sql`: the tables `tickers`,
  `stock_states`, `stock_scores` and `pipeline_runs` (with their CHECK
  constraints and GENERATED columns) and the plpgsql functions
  `get_tickers_due_for_update`, `update_markov_state`, `start_pipeline_run`
  and `complete_pipeline_run`;
* the shared rate pacing of `polyFetch` in the Polygon API module.

Tables are embedded as lists of row structures; a SQL statement that would
raise (a CHECK-constraint or foreign-key violation) is an `Except.error`
leaving the database unchanged, matching PostgreSQL's statement-level
atomicity.  Timestamps are integers; for `stock_states` the unit is minutes
(the unit of the intervals in `update_markov_state`), for `polyFetch` it is
milliseconds (the unit of the 150 ms pacing gap).  The `NUMERIC(5,2)`
composite columns are embedded as exact rationals.

Components of the repository that exist only as deployed Edge Functions and
are not under `src/` (the Prioritizer's budget truncation, the Scoring
Engine's composite formulas, the Orchestrator's run bookkeeping discipline)
are modelled from the specification; each such definition is marked
`Modelled from the spec:` in its doc comment.
-/

/-! ## Markov state machine: states, intervals, rows -/

/-- The CHECK constraint `valid_state` on `stock_states` (schema.sql line 51):
`current_state IN ('HOT', 'WARM', 'COLD', 'FROZEN')`. -/
def validState (s : String) : Bool :=
  s = "HOT" || s = "WARM" || s = "COLD" || s = "FROZEN"

/-- The interval CASE in `update_markov_state` (schema.sql lines 438-444):
HOT 30, WARM 120, COLD 360, FROZEN 1440 minutes, ELSE 360. -/
def markovIntervalMinutes (s : String) : Int :=
  if s = "HOT" then 30
  else if s = "WARM" then 120
  else if s = "COLD" then 360
  else if s = "FROZEN" then 1440
  else 360

/-- A row of the `tickers` table (schema.sql lines 18-29). -/
structure TickerRow where
  ticker : String
  company_name : String
  sector : String
  tier : Int
  is_active : Bool
  added_at : Int
deriving DecidableEq

/-- The CHECK constraint `valid_tier` on `tickers` (schema.sql line 28):
`tier BETWEEN 1 AND 4`. -/
def tickerChecks (r : TickerRow) : Bool :=
  decide (1 ≤ r.tier) && decide (r.tier ≤ 4)

/-- A row of the `stock_states` table (schema.sql lines 41-52). -/
structure StockStateRow where
  ticker : String
  current_state : String
  previous_state : Option String
  last_updated : Int
  next_update_due : Int
  promotion_reason : Option String
  promotion_expires : Option Int
  consecutive_hot : Int
deriving DecidableEq

/-- A row of the `stock_scores` table (schema.sql lines 120-167), restricted
to its writable columns.  The columns `total_score`, `is_triple_crown`,
`is_value_trap` and `is_expensive_growth` are `GENERATED ALWAYS ... STORED`
and therefore cannot be written; they are embedded as the functions
`ScoreRow.total_score` etc. below.  The `NUMERIC(5,2)` composites are exact
rationals. -/
structure ScoreRow where
  ticker : String
  moat_score : Int
  growth_score : Int
  balance_score : Int
  valuation_score : Int
  sentiment_score : Int
  dividend_score : Int
  mfses_short : ℚ
  mfses_mid : ℚ
  mfses_long : ℚ
  graham_value : Option ℚ
  graham_upside_pct : Option ℚ
  scored_at : Int
deriving DecidableEq

/-- The generated column `total_score` (schema.sql lines 132-135):
sum of the six factor scores. -/
def ScoreRow.total_score (r : ScoreRow) : Int :=
  r.moat_score + r.growth_score + r.balance_score +
    r.valuation_score + r.sentiment_score + r.dividend_score

/-- The generated column `is_triple_crown` (schema.sql lines 147-149):
`mfses_short >= 14 AND mfses_mid >= 14 AND mfses_long >= 14`. -/
def ScoreRow.is_triple_crown (r : ScoreRow) : Bool :=
  decide (14 ≤ r.mfses_short) && decide (14 ≤ r.mfses_mid) &&
    decide (14 ≤ r.mfses_long)

/-- The generated column `is_value_trap` (schema.sql lines 150-152):
`valuation_score >= 18 AND (moat_score < 12 OR balance_score < 10)`. -/
def ScoreRow.is_value_trap (r : ScoreRow) : Bool :=
  decide (18 ≤ r.valuation_score) &&
    (decide (r.moat_score < 12) || decide (r.balance_score < 10))

/-- The generated column `is_expensive_growth` (schema.sql lines 153-155):
`growth_score >= 18 AND valuation_score < 8`. -/
def ScoreRow.is_expensive_growth (r : ScoreRow) : Bool :=
  decide (18 ≤ r.growth_score) && decide (r.valuation_score < 8)

/-- The six CHECK constraints `valid_moat` .. `valid_dividend` on
`stock_scores` (schema.sql lines 161-166): each factor `BETWEEN 0 AND 20`. -/
def scoreChecks (r : ScoreRow) : Bool :=
  decide (0 ≤ r.moat_score) && decide (r.moat_score ≤ 20) &&
  decide (0 ≤ r.growth_score) && decide (r.growth_score ≤ 20) &&
  decide (0 ≤ r.balance_score) && decide (r.balance_score ≤ 20) &&
  decide (0 ≤ r.valuation_score) && decide (r.valuation_score ≤ 20) &&
  decide (0 ≤ r.sentiment_score) && decide (r.sentiment_score ≤ 20) &&
  decide (0 ≤ r.dividend_score) && decide (r.dividend_score ≤ 20)

/-- A row of the `pipeline_runs` table (schema.sql lines 181-206).  The UUID
primary key is embedded as a natural number. -/
structure RunRow where
  id : Nat
  run_type : String
  started_at : Int
  finished_at : Option Int
  duration_seconds : Option Int
  markov_tickers_due : Int
  collected_count : Int
  scored_count : Int
  states_promoted : Int
  states_demoted : Int
  api_calls_made : Int
  api_errors : Int
  status : String
  error_message : Option String
  error_step : Option String
  retry_count : Int
deriving DecidableEq

/-- The CHECK constraint `valid_status` on `pipeline_runs` (schema.sql
line 205): `status IN ('running', 'success', 'partial', 'failed')`. -/
def validStatus (s : String) : Bool :=
  s = "running" || s = "success" || s = "partial" || s = "failed"

/-- The database: the four tables the claims are about. -/
structure Database where
  tickers : List TickerRow
  stock_states : List StockStateRow
  stock_scores : List ScoreRow
  pipeline_runs : List RunRow
deriving DecidableEq

/-- All CHECK constraints of the schema hold on every stored row. -/
def Database.WF (db : Database) : Prop :=
  db.tickers.all tickerChecks = true ∧
  db.stock_states.all (fun r => validState r.current_state) = true ∧
  db.stock_scores.all scoreChecks = true ∧
  db.pipeline_runs.all (fun r => validStatus r.status) = true

instance (db : Database) : Decidable db.WF := by
  unfold Database.WF
  infer_instance

/-! ## Store operations from schema.sql -/

/-- INSERT into `tickers` (used by the bootstrap loader): primary-key
conflict or a `valid_tier` CHECK violation raises, otherwise the row is
appended. -/
def insert_ticker (db : Database) (row : TickerRow) : Except String Database :=
  if db.tickers.any (fun t => decide (t.ticker = row.ticker)) then
    Except.error "duplicate key value violates unique constraint tickers_pkey"
  else if !tickerChecks row then
    Except.error "new row violates check constraint valid_tier"
  else
    Except.ok { db with tickers := db.tickers ++ [row] }

/-- The bootstrap row of `stock_states` (schema.sql lines 41-52 defaults):
`current_state` defaults to COLD, `last_updated` and `next_update_due`
default to now, counters to 0, nullable columns to NULL. -/
def defaultStockState (t : String) (now : Int) : StockStateRow :=
  { ticker := t
    current_state := "COLD"
    previous_state := none
    last_updated := now
    next_update_due := now
    promotion_reason := none
    promotion_expires := none
    consecutive_hot := 0 }

/-- INSERT into `stock_states` with the column defaults: foreign-key or
primary-key violation raises, otherwise the default COLD row is appended. -/
def insert_stock_state (db : Database) (t : String) (now : Int) :
    Except String Database :=
  if !(db.tickers.any (fun r => decide (r.ticker = t))) then
    Except.error "insert violates foreign key constraint on stock_states"
  else if db.stock_states.any (fun r => decide (r.ticker = t)) then
    Except.error "duplicate key value violates unique constraint stock_states_pkey"
  else
    Except.ok { db with stock_states := db.stock_states ++ [defaultStockState t now] }

/-- The row transform of the UPDATE in `update_markov_state` (schema.sql
lines 446-463): `previous_state := current_state`, `current_state := new`,
`last_updated := now`, `next_update_due := now + interval`, `promotion_reason
:= reason` for HOT/WARM else NULL, `promotion_expires := now + 24h` for HOT
else NULL, `consecutive_hot` incremented for HOT else reset to 0. -/
def markovTransition (r : StockStateRow) (newState : String)
    (reason : Option String) (now : Int) : StockStateRow :=
  { r with
    previous_state := some r.current_state
    current_state := newState
    last_updated := now
    next_update_due := now + markovIntervalMinutes newState
    promotion_reason :=
      if newState = "HOT" || newState = "WARM" then reason else none
    promotion_expires :=
      if newState = "HOT" then some (now + 24 * 60) else none
    consecutive_hot :=
      if newState = "HOT" then r.consecutive_hot + 1 else 0 }

/-- The function `update_markov_state(p_ticker, p_new_state, p_reason)`
(schema.sql lines 428-465).  The UPDATE touches the rows with
`ticker = p_ticker` (at most one, by the primary key); if an updated row
would violate the `valid_state` CHECK constraint the statement raises and
the database is unchanged; updating zero rows is a silent no-op. -/
def update_markov_state (db : Database) (p_ticker p_new_state : String)
    (p_reason : Option String) (now : Int) : Except String Database :=
  if db.stock_states.any (fun r => decide (r.ticker = p_ticker)) &&
      !validState p_new_state then
    Except.error "new row violates check constraint valid_state"
  else
    Except.ok { db with
      stock_states := db.stock_states.map (fun r =>
        if r.ticker = p_ticker then markovTransition r p_new_state p_reason now
        else r) }

/-- Upsert into `stock_scores`, as constrained by the table DDL (schema.sql
lines 120-167): only the writable columns are supplied (the generated
columns cannot be), a CHECK or foreign-key violation raises, an existing
row for the ticker is overwritten, otherwise the row is appended. -/
def upsert_stock_score (db : Database) (row : ScoreRow) :
    Except String Database :=
  if !(db.tickers.any (fun t => decide (t.ticker = row.ticker))) then
    Except.error "insert violates foreign key constraint on stock_scores"
  else if !scoreChecks row then
    Except.error "new row violates check constraint on stock_scores"
  else if db.stock_scores.any (fun r => decide (r.ticker = row.ticker)) then
    Except.ok { db with
      stock_scores := db.stock_scores.map (fun r =>
        if r.ticker = row.ticker then row else r) }
  else
    Except.ok { db with stock_scores := db.stock_scores ++ [row] }

/-- A fresh `pipeline_runs` identifier (the embedding of `uuid_generate_v4`:
any value distinct from every stored id). -/
def freshRunId (db : Database) : Nat :=
  db.pipeline_runs.foldr (fun r acc => max (r.id + 1) acc) 0

/-- The `pipeline_runs` row inserted by `start_pipeline_run` (schema.sql
lines 476-478 with the column defaults of lines 181-206): `status` is
`'running'`, counters are 0, the finish fields are NULL. -/
def startRunRow (rid : Nat) (p_run_type : String) (now : Int) : RunRow :=
  { id := rid
    run_type := p_run_type
    started_at := now
    finished_at := none
    duration_seconds := none
    markov_tickers_due := 0
    collected_count := 0
    scored_count := 0
    states_promoted := 0
    states_demoted := 0
    api_calls_made := 0
    api_errors := 0
    status := "running"
    error_message := none
    error_step := none
    retry_count := 0 }

/-- The function `start_pipeline_run(p_run_type)` (schema.sql lines 471-482):
inserts a `pipeline_runs` row with `status = 'running'` and the column
defaults, returning its id. -/
def start_pipeline_run (db : Database) (p_run_type : String) (now : Int) :
    Database × Nat :=
  let rid := freshRunId db
  ({ db with pipeline_runs := db.pipeline_runs ++ [startRunRow rid p_run_type now] },
   rid)

/-- The row transform of the UPDATE in `complete_pipeline_run` (schema.sql
lines 501-514): sets `finished_at`, `duration_seconds`, `status`, the
per-step counters and the error fields. -/
def completeRunRow (r : RunRow) (p_status : String)
    (p_markov_count p_collected p_scored p_promoted p_demoted
      p_api_calls p_api_errors : Int)
    (p_error_message p_error_step : Option String) (now : Int) : RunRow :=
  { r with
    finished_at := some now
    duration_seconds := some (now - r.started_at)
    status := p_status
    markov_tickers_due := p_markov_count
    collected_count := p_collected
    scored_count := p_scored
    states_promoted := p_promoted
    states_demoted := p_demoted
    api_calls_made := p_api_calls
    api_errors := p_api_errors
    error_message := p_error_message
    error_step := p_error_step }

/-- The function `complete_pipeline_run(p_run_id, p_status, ...)`
(schema.sql lines 486-516).  The UPDATE touches the rows with
`id = p_run_id` (at most one); a `valid_status` CHECK violation raises;
updating zero rows is a silent no-op. -/
def complete_pipeline_run (db : Database) (p_run_id : Nat) (p_status : String)
    (p_markov_count p_collected p_scored p_promoted p_demoted
      p_api_calls p_api_errors : Int)
    (p_error_message p_error_step : Option String) (now : Int) :
    Except String Database :=
  if db.pipeline_runs.any (fun r => decide (r.id = p_run_id)) &&
      !validStatus p_status then
    Except.error "new row violates check constraint valid_status"
  else
    Except.ok { db with
      pipeline_runs := db.pipeline_runs.map (fun r =>
        if r.id = p_run_id then
          completeRunRow r p_status p_markov_count p_collected p_scored
            p_promoted p_demoted p_api_calls p_api_errors
            p_error_message p_error_step now
        else r) }

/-! ## The due-instruments query -/

/-- The join condition of `get_tickers_due_for_update` (schema.sql lines
409-411): the state row joins an active `tickers` row. -/
def tickerActive (db : Database) (t : String) : Bool :=
  db.tickers.any (fun r => decide (r.ticker = t) && r.is_active)

/-- The ORDER BY CASE of `get_tickers_due_for_update` (schema.sql lines
414-419): HOT 1, WARM 2, COLD 3, FROZEN 4.  The SQL CASE has no ELSE and
yields NULL for any other string, and NULLs sort after all non-NULL keys
under ASC; the value 5 embeds that (by the `valid_state` CHECK this branch
never occurs on stored rows). -/
def statePriority (s : String) : Nat :=
  if s = "HOT" then 1
  else if s = "WARM" then 2
  else if s = "COLD" then 3
  else if s = "FROZEN" then 4
  else 5

/-- The sort key order of `get_tickers_due_for_update`: primary key is the
state priority, secondary key `next_update_due` ascending. -/
def dueKeyLE (a b : StockStateRow) : Bool :=
  decide (statePriority a.current_state < statePriority b.current_state) ||
    (decide (statePriority a.current_state = statePriority b.current_state) &&
      decide (a.next_update_due ≤ b.next_update_due))

/-- The WHERE clause of `get_tickers_due_for_update` (schema.sql lines
409-412): state rows whose ticker is active and whose `next_update_due`
has passed, in stored order (not yet sorted). -/
def dueUnsorted (db : Database) (now : Int) : List StockStateRow :=
  db.stock_states.filter (fun r =>
    tickerActive db r.ticker && decide (r.next_update_due ≤ now))

/-- What the SQL of `get_tickers_due_for_update` guarantees about a result
list: it holds the rows selected by the WHERE clause, each exactly once, in
an order consistent with the ORDER BY keys.  SQL fixes nothing further: the
relative order of rows that tie on both sort keys is unspecified. -/
def IsDueQueryResult (db : Database) (now : Int)
    (l : List StockStateRow) : Prop :=
  l.Perm (dueUnsorted db now) ∧ l.Pairwise (fun a b => dueKeyLE a b = true)

/-- A canonical execution of `get_tickers_due_for_update` (schema.sql lines
397-422): the WHERE-selected rows sorted by the ORDER BY keys. -/
def dueSorted (db : Database) (now : Int) : List StockStateRow :=
  (dueUnsorted db now).mergeSort dueKeyLE

/-- The projection returned by `get_tickers_due_for_update` (schema.sql
lines 398-408): `(ticker, current_state, last_updated)` triples. -/
def get_tickers_due_for_update (db : Database) (now : Int) :
    List (String × String × Int) :=
  (dueSorted db now).map (fun r => (r.ticker, r.current_state, r.last_updated))

/-- Modelled from the spec: the Prioritizer's `selectBatch(now, budget)`
truncates the due list to `budget` entries.  The Edge Function implementing
the Prioritizer is not under `src/`; only its query
`get_tickers_due_for_update` is, so the truncation is taken from §4.2 of
the specification. -/
def selectBatch (db : Database) (now : Int) (budget : Nat) :
    List StockStateRow :=
  (dueSorted db now).take budget

/-! ## Scoring composites (modelled from the spec) -/

/-- Modelled from the spec: the short-horizon composite
`0.35·growth + 0.20·valuation + 0.15·sentiment + 0.15·moat + 0.10·balance +
0.05·dividend` (§4.3; also the COMMENT on `stock_scores.mfses_short`,
schema.sql line 170).  The Scoring Engine computing it is an Edge Function
not under `src/`. -/
def mfsesShortOf (moat growth balance valuation sentiment dividend : ℚ) : ℚ :=
  0.35 * growth + 0.20 * valuation + 0.15 * sentiment +
    0.15 * moat + 0.10 * balance + 0.05 * dividend

/-- Modelled from the spec: the mid-horizon composite
`0.30·moat + 0.20·valuation + 0.20·growth + 0.15·balance + 0.10·dividend +
0.05·sentiment` (§4.3; COMMENT on `stock_scores.mfses_mid`, schema.sql
line 171). -/
def mfsesMidOf (moat growth balance valuation sentiment dividend : ℚ) : ℚ :=
  0.30 * moat + 0.20 * valuation + 0.20 * growth +
    0.15 * balance + 0.10 * dividend + 0.05 * sentiment

/-- Modelled from the spec: the long-horizon composite
`0.30·moat + 0.25·balance + 0.15·dividend + 0.15·valuation + 0.10·growth +
0.05·sentiment` (§4.3; COMMENT on `stock_scores.mfses_long`, schema.sql
line 172). -/
def mfsesLongOf (moat growth balance valuation sentiment dividend : ℚ) : ℚ :=
  0.30 * moat + 0.25 * balance + 0.15 * dividend +
    0.15 * valuation + 0.10 * growth + 0.05 * sentiment

/-! ## Orchestrator cycle (modelled from the spec) -/

/-- Modelled from the spec: the Orchestrator's run classification (§4.5):
`failed` if the cycle could not proceed at all, `success` if zero step
failures, else `partial`.  The Orchestrator Edge Function is not under
`src/`. -/
def classifyRun (fatal : Bool) (failures : Nat) : String :=
  if fatal then "failed"
  else if failures = 0 then "success"
  else "partial"

/-- Modelled from the spec: one Orchestrator cycle's run bookkeeping (§4.5
and §3 PipelineRun): `start_pipeline_run` once at cycle start, then
`complete_pipeline_run` exactly once at cycle end with a terminal status
and the accumulated counters.  The Orchestrator Edge Function is not under
`src/`; the two database functions it calls are embedded from schema.sql. -/
def orchestrateCycle (db : Database) (runType : String) (t0 t1 : Int)
    (fatal : Bool) (failures : Nat)
    (markov collected scored promoted demoted apiCalls apiErrors : Int)
    (msg step : Option String) : Except String Database :=
  let started := start_pipeline_run db runType t0
  complete_pipeline_run started.1 started.2 (classifyRun fatal failures)
    markov collected scored promoted demoted apiCalls apiErrors msg step t1

/-! ## Polygon API rate pacing

The pacing of `polyFetch` (Polygon module) is: read the module-level shared
`lastCall`, compute `wait = max 0 (150 - (now - lastCall))`, sleep `wait`
ms **only if `wait > 0`** (an `await` suspension point), then write
`lastCall := Date.now()` and start the fetch.  Crucially, when a call
suspends, the write to `lastCall` happens only after the suspension, so
other calls issued meanwhile read the same stale `lastCall` value — the
pacing is not serialized across concurrent callers. -/

/-- The start time of one `polyFetch` call requested at `req` that observed
the shared value `lastRead` when it read `lastCall`: it waits
`max 0 (150 - (req - lastRead))` ms, so it resumes — writes `lastCall` and
starts its fetch — at `req + wait = max req (lastRead + 150)`. -/
def paceStart (lastRead req : Int) : Int :=
  max req (lastRead + 150)

/-- The serialized execution of a sequence of `polyFetch` calls: each call
observes the `lastCall` value written by the previous call.  This is the
non-overlapping case — each call requested only after the previous one
resumed, e.g. the successive `polyFetch` calls of a single await chain.
Concurrent callers do not thread `lastCall` this way; see
`sameTickBatchStarts`. -/
def paceSchedule (lastCall : Int) : List Int → List Int
  | [] => []
  | req :: rest => paceStart lastCall req :: paceSchedule (paceStart lastCall req) rest

/-- Execution of `n` concurrent `polyFetch` calls issued in the same
synchronous turn at time `req` while the shared timestamp holds `lastCall`
(as when several independent await chains each fire their next call in one
tick).  Each call runs synchronously up to its first suspension, in issue
order:

* if `lastCall + 150 ≤ req`, the first call computes `wait = 0`, skips the
  sleep entirely (no suspension) and writes `lastCall := req` before the
  later calls read; each of the `n - 1` later calls then observes `req`,
  sleeps 150 ms, and resumes at `req + 150` — all of them simultaneously;
* otherwise every call computes `wait > 0` and suspends before writing, so
  all `n` calls observe the same stale `lastCall`, share the deadline
  `lastCall + 150`, and resume and start simultaneously. -/
def sameTickBatchStarts (lastCall req : Int) (n : Nat) : List Int :=
  match n with
  | 0 => []
  | Nat.succ m =>
    if lastCall + 150 ≤ req then
      paceStart lastCall req :: List.replicate m (paceStart req req)
    else
      List.replicate (m + 1) (paceStart lastCall req)

/-- Number of calls of a schedule that start in the rolling 60-second
(60000 ms) window beginning at `t0`. -/
def callsInWindow (sched : List Int) (t0 : Int) : Nat :=
  (sched.filter (fun t => decide (t0 ≤ t) && decide (t < t0 + 60000))).length

/-- The Polygon free-tier ceiling stated in the `polyFetch` comment:
"Rate limit: 150ms between calls (free tier = 5/min, pro = higher)". -/
def polygonFreeTierPerMinute : Nat := 5

/-! ## Concrete example rows and databases used by the theorems -/

/-- An active tier-1 ticker row used by the concrete examples. -/
def aaplTicker : TickerRow :=
  { ticker := "AAPL"
    company_name := "Apple Inc"
    sector := "Technology"
    tier := 1
    is_active := true
    added_at := 0 }

/-- Example database: one active ticker AAPL with its bootstrap COLD state
row. -/
def c1db : Database :=
  { tickers := [aaplTicker]
    stock_states := [defaultStockState "AAPL" 0]
    stock_scores := []
    pipeline_runs := [] }

/-- Result of transitioning AAPL to HOT in the example database. -/
def c9db : Database :=
  { c1db with stock_states := [markovTransition (defaultStockState "AAPL" 0) "HOT" (some "volume_spike_3x") 10] }

/-- A concrete `stock_scores` row from given factor scores and composites
(remaining columns defaulted). -/
def mkScoreRow (moat growth balance valuation sentiment dividend : Int)
    (s m l : ℚ) : ScoreRow :=
  { ticker := "X"
    moat_score := moat
    growth_score := growth
    balance_score := balance
    valuation_score := valuation
    sentiment_score := sentiment
    dividend_score := dividend
    mfses_short := s
    mfses_mid := m
    mfses_long := l
    graham_value := none
    graham_upside_pct := none
    scored_at := 0 }

/-- Example database with two active tickers for the C4 counterexample. -/
def c4db : Database :=
  { tickers := [aaplTicker,
      { ticker := "MSFT"
        company_name := "Microsoft Corp"
        sector := "Technology"
        tier := 1
        is_active := true
        added_at := 0 }]
    stock_states := []
    stock_scores := []
    pipeline_runs := [] }

/-- A score row for AAPL: all six factors 10, composites written as 14. -/
def c4row1 : ScoreRow :=
  { mkScoreRow 10 10 10 10 10 10 14 14 14 with ticker := "AAPL" }

/-- A score row for MSFT: the same six factors 10, composites written as 0. -/
def c4row2 : ScoreRow :=
  { mkScoreRow 10 10 10 10 10 10 0 0 0 with ticker := "MSFT" }

/-- The database after storing `c4row1`. -/
def c4db1 : Database := { c4db with stock_scores := [c4row1] }

/-- The database after additionally storing `c4row2`. -/
def c4db2 : Database := { c4db with stock_scores := [c4row1, c4row2] }

/-- A HOT state row for AAPL due at time 50. -/
def c2rowA : StockStateRow :=
  { ticker := "AAPL"
    current_state := "HOT"
    previous_state := some "WARM"
    last_updated := 20
    next_update_due := 50
    promotion_reason := some "volume_spike_3x"
    promotion_expires := some 1460
    consecutive_hot := 1 }

/-- A HOT state row for MSFT, tied with `c2rowA` on both sort keys. -/
def c2rowB : StockStateRow :=
  { c2rowA with ticker := "MSFT" }

/-- A `tickers` row for MSFT. -/
def msftTicker : TickerRow :=
  { ticker := "MSFT"
    company_name := "Microsoft Corp"
    sector := "Technology"
    tier := 1
    is_active := true
    added_at := 0 }

/-- Example database with two active tickers whose HOT state rows tie on
both ORDER BY keys. -/
def c2db : Database :=
  { tickers := [aaplTicker, msftTicker]
    stock_states := [c2rowA, c2rowB]
    stock_scores := []
    pipeline_runs := [] }

/-! ## Shared helper lemmas -/

theorem map_self_of_fixed {α : Type} (l : List α) (f : α → α)
    (h : ∀ a ∈ l, f a = a) : l.map f = l := by
  induction l with
  | nil => rfl
  | cons x xs ih =>
    simp only [List.map_cons, List.cons.injEq]
    exact ⟨h x (by simp), ih (fun a ha => h a (by simp [ha]))⟩

theorem id_lt_foldr_fresh (l : List RunRow) (r : RunRow) (hr : r ∈ l) :
    r.id < l.foldr (fun x acc => max (x.id + 1) acc) 0 := by
  induction l with
  | nil => cases hr
  | cons x xs ih =>
    rcases List.mem_cons.mp hr with h | h
    · subst h
      simp only [List.foldr_cons]
      omega
    · have := ih h
      simp only [List.foldr_cons]
      omega

theorem id_lt_freshRunId (db : Database) (r : RunRow)
    (hr : r ∈ db.pipeline_runs) : r.id < freshRunId db :=
  id_lt_foldr_fresh db.pipeline_runs r hr

theorem dueKeyLE_trans (a b c : StockStateRow) (hab : dueKeyLE a b = true)
    (hbc : dueKeyLE b c = true) : dueKeyLE a c = true := by
  simp only [dueKeyLE, Bool.or_eq_true, Bool.and_eq_true,
    decide_eq_true_eq] at *
  omega

theorem dueKeyLE_total (a b : StockStateRow) :
    (dueKeyLE a b || dueKeyLE b a) = true := by
  simp only [dueKeyLE, Bool.or_eq_true, Bool.and_eq_true, decide_eq_true_eq]
  omega

theorem total_le_of_checks (r : ScoreRow) (h : scoreChecks r = true) :
    r.total_score ≤ 120 := by
  simp only [scoreChecks, Bool.and_eq_true, decide_eq_true_eq] at h
  simp only [ScoreRow.total_score]
  omega

/-! ## Claim C1: the Markov transition operation -/

/-- C1 counterexample: the claim says a transition to an unrecognized state
writes the row with the COLD fallback interval of 360 minutes.  In fact the
`valid_state` CHECK constraint on `stock_states` rejects the UPDATE: on an
existing state row, `update_markov_state` with the unrecognized state
BLAZING raises and writes nothing, so no row ever receives the ELSE-360
fallback (that CASE branch is unreachable in effect). -/
theorem markov_unrecognized_state_raises :
    update_markov_state c1db "AAPL" "BLAZING" none 100 =
      Except.error "new row violates check constraint valid_state" := by
  rfl

/-- C1 as amended: for every recognized new state, `update_markov_state`
applies exactly the field updates of the UPDATE statement to the matching
row — `previous_state` gets the old `current_state`, `last_updated` gets
now, `next_update_due` gets now plus the fixed interval (HOT 30, WARM 120,
COLD 360, FROZEN 1440 minutes), `promotion_reason` is kept iff the new
state is HOT or WARM, `promotion_expires` is now + 24 h iff HOT, and
`consecutive_hot` increments on HOT and resets otherwise; a transition to
an unrecognized state raises instead of writing; and two immediately
successive HOT transitions increment `consecutive_hot` twice, with
`next_update_due` derived from the second call's timestamp. -/
theorem markov_transition_correct :
    (∀ (r : StockStateRow) (s : String) (reason : Option String) (now : Int),
      validState s = true →
        (markovTransition r s reason now).previous_state = some r.current_state ∧
        (markovTransition r s reason now).current_state = s ∧
        (markovTransition r s reason now).last_updated = now ∧
        (markovTransition r s reason now).next_update_due =
          now + (if s = "HOT" then 30 else if s = "WARM" then 120
                 else if s = "COLD" then 360 else 1440) ∧
        (markovTransition r s reason now).promotion_reason =
          (if s = "HOT" ∨ s = "WARM" then reason else none) ∧
        (markovTransition r s reason now).promotion_expires =
          (if s = "HOT" then some (now + 24 * 60) else none) ∧
        (markovTransition r s reason now).consecutive_hot =
          (if s = "HOT" then r.consecutive_hot + 1 else 0)) ∧
    (∀ (db : Database) (t s : String) (reason : Option String) (now : Int),
      validState s = true →
        update_markov_state db t s reason now =
          Except.ok { db with stock_states := db.stock_states.map (fun r =>
            if r.ticker = t then markovTransition r s reason now else r) }) ∧
    (∀ (db : Database) (t s : String) (reason : Option String) (now : Int),
      validState s = false → (∃ r ∈ db.stock_states, r.ticker = t) →
        update_markov_state db t s reason now =
          Except.error "new row violates check constraint valid_state") ∧
    (∀ (r : StockStateRow) (reason reason' : Option String) (now now' : Int),
      (markovTransition (markovTransition r "HOT" reason now) "HOT" reason'
          now').consecutive_hot = r.consecutive_hot + 2 ∧
      (markovTransition (markovTransition r "HOT" reason now) "HOT" reason'
          now').next_update_due = now' + 30) := by
  refine ⟨?_, ?_, ?_, ?_⟩
  · intro r s reason now hs
    simp only [validState, Bool.or_eq_true, decide_eq_true_eq] at hs
    rcases hs with ((h | h) | h) | h <;> subst h <;>
      simp [markovTransition, markovIntervalMinutes]
  · intro db t s reason now hs
    simp [update_markov_state, hs]
  · intro db t s reason now hs hex
    obtain ⟨r, hr, hticker⟩ := hex
    have hany : db.stock_states.any (fun r => decide (r.ticker = t)) = true := by
      simp only [List.any_eq_true, decide_eq_true_eq]
      exact ⟨r, hr, hticker⟩
    simp [update_markov_state, hany, hs]
  · intro r reason reason' now now'
    constructor
    · simp only [markovTransition, markovIntervalMinutes]
      simp
      omega
    · simp [markovTransition, markovIntervalMinutes]

/-- C1 witness: the amended theorem applied to the bootstrap COLD row of
AAPL, transitioned to WARM at time 100 with a reason: `previous_state`
becomes COLD and `next_update_due` becomes 100 + 120. -/
theorem markov_transition_correct_witness :
    (markovTransition (defaultStockState "AAPL" 0) "WARM" (some "earnings") 100).previous_state = some "COLD" ∧
    (markovTransition (defaultStockState "AAPL" 0) "WARM" (some "earnings") 100).next_update_due = 220 ∧
    update_markov_state c1db "AAPL" "WARM" (some "earnings") 100 =
      Except.ok { c1db with stock_states := c1db.stock_states.map (fun r =>
        if r.ticker = "AAPL" then markovTransition r "WARM" (some "earnings") 100 else r) } := by
  have h1 := markov_transition_correct.1 (defaultStockState "AAPL" 0) "WARM"
    (some "earnings") 100 (by decide)
  have h2 := markov_transition_correct.2.1 c1db "AAPL" "WARM"
    (some "earnings") 100 (by decide)
  refine ⟨?_, ?_, h2⟩
  · simpa [defaultStockState] using h1.1
  · simpa using h1.2.2.2.1

/-! ## Claim C10: missing-row operations are silent no-ops -/

/-- C10: calling `update_markov_state` with a ticker that has no state row,
or `complete_pipeline_run` with a run id that has no row, updates zero rows:
the database is unchanged and no error is signalled. -/
theorem missing_row_silent_noop :
    (∀ (db : Database) (t s : String) (reason : Option String) (now : Int),
      (∀ r ∈ db.stock_states, r.ticker ≠ t) →
        update_markov_state db t s reason now = Except.ok db) ∧
    (∀ (db : Database) (rid : Nat) (st : String)
       (a b c d e f g : Int) (msg step : Option String) (now : Int),
      (∀ r ∈ db.pipeline_runs, r.id ≠ rid) →
        complete_pipeline_run db rid st a b c d e f g msg step now =
          Except.ok db) := by
  constructor
  · intro db t s reason now h
    have hany : db.stock_states.any (fun r => decide (r.ticker = t)) = false := by
      simp only [List.any_eq_false, decide_eq_true_eq]
      exact h
    have hmap : db.stock_states.map (fun r =>
        if r.ticker = t then markovTransition r s reason now else r) =
          db.stock_states :=
      map_self_of_fixed _ _ (fun r hr => if_neg (h r hr))
    simp [update_markov_state, hany, hmap]
  · intro db rid st a b c d e f g msg step now h
    have hany : db.pipeline_runs.any (fun r => decide (r.id = rid)) = false := by
      simp only [List.any_eq_false, decide_eq_true_eq]
      exact h
    have hmap : db.pipeline_runs.map (fun r =>
        if r.id = rid then
          completeRunRow r st a b c d e f g msg step now
        else r) = db.pipeline_runs :=
      map_self_of_fixed _ _ (fun r hr => if_neg (h r hr))
    simp [complete_pipeline_run, hany, hmap]

/-- C10 witness: on the example database (which has a state row only for
AAPL and no pipeline runs), transitioning the absent ticker TSLA and
completing the absent run 7 both return the database unchanged. -/
theorem missing_row_silent_noop_witness :
    update_markov_state c1db "TSLA" "HOT" none 5 = Except.ok c1db ∧
    complete_pipeline_run c1db 7 "success" 0 0 0 0 0 0 0 none none 5 =
      Except.ok c1db := by
  constructor
  · exact missing_row_silent_noop.1 c1db "TSLA" "HOT" none 5
      (by simp [c1db, defaultStockState])
  · exact missing_row_silent_noop.2 c1db 7 "success" 0 0 0 0 0 0 0 none none 5
      (by simp [c1db])

/-! ## Check-constraint preservation (shared lemmas) -/

theorem wf_insert_ticker (db : Database) (row : TickerRow) (db' : Database)
    (hwf : db.WF) (h : insert_ticker db row = Except.ok db') : db'.WF := by
  unfold insert_ticker at h
  split at h
  · exact absurd h (by simp)
  · split at h
    · exact absurd h (by simp)
    · rename_i hchk
      obtain rfl : { db with tickers := db.tickers ++ [row] } = db' :=
        Except.ok.inj h
      obtain ⟨h1, h2, h3, h4⟩ := hwf
      refine ⟨?_, h2, h3, h4⟩
      simp only [List.all_eq_true] at h1 ⊢
      intro t ht
      rcases List.mem_append.mp ht with hmem | hmem
      · exact h1 t hmem
      · simp only [List.mem_singleton] at hmem
        subst hmem
        simpa using hchk

theorem wf_insert_stock_state (db : Database) (t : String) (now : Int)
    (db' : Database) (hwf : db.WF)
    (h : insert_stock_state db t now = Except.ok db') : db'.WF := by
  unfold insert_stock_state at h
  split at h
  · exact absurd h (by simp)
  · split at h
    · exact absurd h (by simp)
    · obtain rfl : { db with stock_states := db.stock_states ++ [defaultStockState t now] } = db' :=
        Except.ok.inj h
      obtain ⟨h1, h2, h3, h4⟩ := hwf
      refine ⟨h1, ?_, h3, h4⟩
      simp only [List.all_eq_true] at h2 ⊢
      intro r hr
      rcases List.mem_append.mp hr with hmem | hmem
      · exact h2 r hmem
      · simp only [List.mem_singleton] at hmem
        subst hmem
        rfl

theorem wf_update_markov_state (db : Database) (t s : String)
    (reason : Option String) (now : Int) (db' : Database) (hwf : db.WF)
    (h : update_markov_state db t s reason now = Except.ok db') : db'.WF := by
  unfold update_markov_state at h
  split at h
  · exact absurd h (by simp)
  · rename_i hguard
    obtain rfl : { db with stock_states := db.stock_states.map (fun r =>
        if r.ticker = t then markovTransition r s reason now else r) } = db' :=
      Except.ok.inj h
    obtain ⟨h1, h2, h3, h4⟩ := hwf
    refine ⟨h1, ?_, h3, h4⟩
    simp only [List.all_eq_true] at h2 ⊢
    intro r hr
    obtain ⟨r0, hr0, rfl⟩ := List.mem_map.mp hr
    by_cases hcase : r0.ticker = t
    · simp only [hcase, if_pos]
      have hany : db.stock_states.any (fun r => decide (r.ticker = t)) = true := by
        simp only [List.any_eq_true, decide_eq_true_eq]
        exact ⟨r0, hr0, hcase⟩
      have hs : validState s = true := by
        by_contra hs0
        exact hguard (by simp [hany, hs0])
      simpa [markovTransition] using hs
    · simp only [hcase, if_neg, ite_false]
      exact h2 r0 hr0

theorem wf_upsert_stock_score (db : Database) (row : ScoreRow)
    (db' : Database) (hwf : db.WF)
    (h : upsert_stock_score db row = Except.ok db') : db'.WF := by
  unfold upsert_stock_score at h
  split at h
  · exact absurd h (by simp)
  · split at h
    · exact absurd h (by simp)
    · rename_i hchk
      have hrow : scoreChecks row = true := by
        revert hchk
        simp
      obtain ⟨h1, h2, h3, h4⟩ := hwf
      split at h
      · obtain rfl : { db with stock_scores := db.stock_scores.map (fun r =>
            if r.ticker = row.ticker then row else r) } = db' :=
          Except.ok.inj h
        refine ⟨h1, h2, ?_, h4⟩
        simp only [List.all_eq_true] at h3 ⊢
        intro r hr
        obtain ⟨r0, hr0, rfl⟩ := List.mem_map.mp hr
        by_cases hcase : r0.ticker = row.ticker
        · simpa [hcase] using hrow
        · simpa [hcase] using h3 r0 hr0
      · obtain rfl : { db with stock_scores := db.stock_scores ++ [row] } = db' :=
          Except.ok.inj h
        refine ⟨h1, h2, ?_, h4⟩
        simp only [List.all_eq_true] at h3 ⊢
        intro r hr
        rcases List.mem_append.mp hr with hmem | hmem
        · exact h3 r hmem
        · simp only [List.mem_singleton] at hmem
          subst hmem
          exact hrow

theorem wf_start_pipeline_run (db : Database) (rt : String) (now : Int)
    (hwf : db.WF) : (start_pipeline_run db rt now).1.WF := by
  obtain ⟨h1, h2, h3, h4⟩ := hwf
  refine ⟨h1, h2, h3, ?_⟩
  simp only [start_pipeline_run, List.all_eq_true] at h4 ⊢
  intro r hr
  rcases List.mem_append.mp hr with hmem | hmem
  · exact h4 r hmem
  · simp only [List.mem_singleton] at hmem
    subst hmem
    rfl

theorem wf_complete_pipeline_run (db : Database) (rid : Nat) (st : String)
    (a b c d e f g : Int) (msg step : Option String) (now : Int)
    (db' : Database) (hwf : db.WF)
    (h : complete_pipeline_run db rid st a b c d e f g msg step now =
      Except.ok db') : db'.WF := by
  unfold complete_pipeline_run at h
  split at h
  · exact absurd h (by simp)
  · rename_i hguard
    obtain rfl : { db with pipeline_runs := db.pipeline_runs.map (fun r =>
        if r.id = rid then completeRunRow r st a b c d e f g msg step now
        else r) } = db' :=
      Except.ok.inj h
    obtain ⟨h1, h2, h3, h4⟩ := hwf
    refine ⟨h1, h2, h3, ?_⟩
    simp only [List.all_eq_true] at h4 ⊢
    intro r hr
    obtain ⟨r0, hr0, rfl⟩ := List.mem_map.mp hr
    by_cases hcase : r0.id = rid
    · simp only [hcase, if_pos]
      have hany : db.pipeline_runs.any (fun r => decide (r.id = rid)) = true := by
        simp only [List.any_eq_true, decide_eq_true_eq]
        exact ⟨r0, hr0, hcase⟩
      have hs : validStatus st = true := by
        by_contra hs0
        exact hguard (by simp [hany, hs0])
      simpa [completeRunRow] using hs
    · simp only [hcase, if_neg, ite_false]
      exact h4 r0 hr0

/-! ## Claim C9: CHECK-constraint ranges are invariants of every operation -/

/-- C9: every store operation preserves well-formedness — each stored score
row keeps its six factor scores in 0..20, each state row keeps
`current_state` in HOT/WARM/COLD/FROZEN, each ticker row keeps `tier` in
1..4 (and each run row a valid status): a write that would break a range
raises and changes nothing, so no write can make the ranges false. -/
theorem store_checks_invariant :
    (∀ (db : Database) (row : TickerRow) (db' : Database),
      db.WF → insert_ticker db row = Except.ok db' → db'.WF) ∧
    (∀ (db : Database) (t : String) (now : Int) (db' : Database),
      db.WF → insert_stock_state db t now = Except.ok db' → db'.WF) ∧
    (∀ (db : Database) (t s : String) (reason : Option String) (now : Int)
       (db' : Database),
      db.WF → update_markov_state db t s reason now = Except.ok db' → db'.WF) ∧
    (∀ (db : Database) (row : ScoreRow) (db' : Database),
      db.WF → upsert_stock_score db row = Except.ok db' → db'.WF) ∧
    (∀ (db : Database) (rt : String) (now : Int),
      db.WF → (start_pipeline_run db rt now).1.WF) ∧
    (∀ (db : Database) (rid : Nat) (st : String) (a b c d e f g : Int)
       (msg step : Option String) (now : Int) (db' : Database),
      db.WF → complete_pipeline_run db rid st a b c d e f g msg step now =
        Except.ok db' → db'.WF) :=
  ⟨fun db row db' hwf h => wf_insert_ticker db row db' hwf h,
   fun db t now db' hwf h => wf_insert_stock_state db t now db' hwf h,
   fun db t s reason now db' hwf h => wf_update_markov_state db t s reason now db' hwf h,
   fun db row db' hwf h => wf_upsert_stock_score db row db' hwf h,
   fun db rt now hwf => wf_start_pipeline_run db rt now hwf,
   fun db rid st a b c d e f g msg step now db' hwf h =>
     wf_complete_pipeline_run db rid st a b c d e f g msg step now db' hwf h⟩

/-- C9 witness: the invariant theorem applied concretely — the example
database is well-formed, transitioning AAPL to HOT yields exactly `c9db`,
and the preserved well-formedness is recovered from the theorem. -/
theorem store_checks_invariant_witness :
    c1db.WF ∧
    update_markov_state c1db "AAPL" "HOT" (some "volume_spike_3x") 10 =
      Except.ok c9db ∧
    c9db.WF ∧
    (start_pipeline_run c1db "market_hours" 3).1.WF := by
  have hwf : c1db.WF := by decide
  have hup : update_markov_state c1db "AAPL" "HOT" (some "volume_spike_3x") 10 =
      Except.ok c9db := by rfl
  exact ⟨hwf,
    hup,
    store_checks_invariant.2.2.1 c1db "AAPL" "HOT" (some "volume_spike_3x") 10
      c9db hwf hup,
    store_checks_invariant.2.2.2.2.1 c1db "market_hours" 3 hwf⟩

/-! ## Claim C3: the derived boolean classifiers -/

/-- C3: on every stored score row the three generated classifiers equal
their defining predicates — triple crown iff all three composites are at
least 14, value trap iff valuation ≥ 18 and (moat < 12 or balance < 10),
expensive growth iff growth ≥ 18 and valuation < 8 — and the four concrete
evaluations of the specification hold: composites (14,14,14) are a triple
crown, (13.9,20,20) are not; valuation 18 with moat 11 and balance 15 is a
value trap, valuation 17 with moat 5 and balance 5 is not. -/
theorem score_flags_match_predicates :
    (∀ r : ScoreRow, r.is_triple_crown = true ↔
      (14 ≤ r.mfses_short ∧ 14 ≤ r.mfses_mid ∧ 14 ≤ r.mfses_long)) ∧
    (∀ r : ScoreRow, r.is_value_trap = true ↔
      (18 ≤ r.valuation_score ∧ (r.moat_score < 12 ∨ r.balance_score < 10))) ∧
    (∀ r : ScoreRow, r.is_expensive_growth = true ↔
      (18 ≤ r.growth_score ∧ r.valuation_score < 8)) ∧
    (mkScoreRow 0 0 0 0 0 0 14 14 14).is_triple_crown = true ∧
    (mkScoreRow 0 0 0 0 0 0 13.9 20 20).is_triple_crown = false ∧
    (mkScoreRow 11 0 15 18 0 0 0 0 0).is_value_trap = true ∧
    (mkScoreRow 5 0 5 17 0 0 0 0 0).is_value_trap = false := by
  refine ⟨?_, ?_, ?_, ?_, ?_, ?_, ?_⟩
  · intro r
    simp [ScoreRow.is_triple_crown, and_assoc]
  · intro r
    simp [ScoreRow.is_value_trap]
  · intro r
    simp [ScoreRow.is_expensive_growth]
  · decide
  · simp only [ScoreRow.is_triple_crown, mkScoreRow]
    norm_num
  · decide
  · decide

/-! ## Claim C4: which score columns are derived, and from what -/

/-- C4 counterexample: the three composites are ordinary writable columns,
not generated ones, so the classifiers are not functions of the six factor
scores (and price).  Concretely, two successive upserts accepted by the
store create two rows with identical six factor scores whose written
composites differ, and `is_triple_crown` is true on one and false on the
other. -/
theorem composite_independent_mutation :
    upsert_stock_score c4db c4row1 = Except.ok c4db1 ∧
    upsert_stock_score c4db1 c4row2 = Except.ok c4db2 ∧
    c4row1.moat_score = c4row2.moat_score ∧
    c4row1.growth_score = c4row2.growth_score ∧
    c4row1.balance_score = c4row2.balance_score ∧
    c4row1.valuation_score = c4row2.valuation_score ∧
    c4row1.sentiment_score = c4row2.sentiment_score ∧
    c4row1.dividend_score = c4row2.dividend_score ∧
    c4row1.mfses_short ≠ c4row2.mfses_short ∧
    c4row1.is_triple_crown = true ∧
    c4row2.is_triple_crown = false := by
  refine ⟨rfl, rfl, ?_, ?_, ?_, ?_, ?_, ?_, ?_, ?_, ?_⟩ <;> decide

/-- C4 as amended: `total_score` and the classifiers are generated — no
write can supply them, every stored row's `total_score` equals the sum of
its six factor scores and is at most 120 on a well-formed database — but
the three composites are writable columns: a successful upsert stores
exactly the caller-supplied row, composites included, independently of the
factor scores. -/
theorem generated_columns_derived :
    (∀ r : ScoreRow, r.total_score =
      r.moat_score + r.growth_score + r.balance_score +
        r.valuation_score + r.sentiment_score + r.dividend_score) ∧
    (∀ (db : Database) (row : ScoreRow) (db' : Database),
      db.WF → upsert_stock_score db row = Except.ok db' →
        ∀ s ∈ db'.stock_scores, s.total_score ≤ 120) ∧
    (∀ (db : Database) (row : ScoreRow) (db' : Database),
      upsert_stock_score db row = Except.ok db' → row ∈ db'.stock_scores) := by
  refine ⟨fun r => rfl, ?_, ?_⟩
  · intro db row db' hwf h s hs
    have hwf' : db'.WF := wf_upsert_stock_score db row db' hwf h
    exact total_le_of_checks s (List.all_eq_true.mp hwf'.2.2.1 s hs)
  · intro db row db' h
    unfold upsert_stock_score at h
    split at h
    · exact absurd h (by simp)
    · split at h
      · exact absurd h (by simp)
      · split at h
        · rename_i hany
          obtain rfl : { db with stock_scores := db.stock_scores.map (fun r =>
              if r.ticker = row.ticker then row else r) } = db' :=
            Except.ok.inj h
          simp only [List.any_eq_true, decide_eq_true_eq] at hany
          obtain ⟨r0, hr0, hcase⟩ := hany
          exact List.mem_map.mpr ⟨r0, hr0, by simp [hcase]⟩
        · obtain rfl : { db with stock_scores := db.stock_scores ++ [row] } = db' :=
            Except.ok.inj h
          simp

/-- C4 witness: the amended theorem applied concretely — storing `c4row1`
into the well-formed example database keeps every total at most 120 and
stores the row (with its caller-chosen composites) verbatim. -/
theorem generated_columns_derived_witness :
    c4row1.total_score ≤ 120 ∧ c4row1 ∈ c4db1.stock_scores := by
  have hwf : c4db.WF := by decide
  have h : upsert_stock_score c4db c4row1 = Except.ok c4db1 := by rfl
  exact ⟨generated_columns_derived.2.1 c4db c4row1 c4db1 hwf h c4row1
      (generated_columns_derived.2.2 c4db c4row1 c4db1 h),
    generated_columns_derived.2.2 c4db c4row1 c4db1 h⟩

/-! ## Claim C5: composite weight vectors -/

/-- C5: each of the three weight vectors sums to exactly 1.00 (evaluating a
composite with every factor equal to 1 yields exactly 1), and for factor
inputs in the range 0..20 every composite lies in the range 0..20. -/
theorem composite_weights_convex :
    (mfsesShortOf 1 1 1 1 1 1 = 1 ∧ mfsesMidOf 1 1 1 1 1 1 = 1 ∧
      mfsesLongOf 1 1 1 1 1 1 = 1) ∧
    (∀ moat growth balance valuation sentiment dividend : ℚ,
      0 ≤ moat → moat ≤ 20 → 0 ≤ growth → growth ≤ 20 →
      0 ≤ balance → balance ≤ 20 → 0 ≤ valuation → valuation ≤ 20 →
      0 ≤ sentiment → sentiment ≤ 20 → 0 ≤ dividend → dividend ≤ 20 →
        (0 ≤ mfsesShortOf moat growth balance valuation sentiment dividend ∧
          mfsesShortOf moat growth balance valuation sentiment dividend ≤ 20) ∧
        (0 ≤ mfsesMidOf moat growth balance valuation sentiment dividend ∧
          mfsesMidOf moat growth balance valuation sentiment dividend ≤ 20) ∧
        (0 ≤ mfsesLongOf moat growth balance valuation sentiment dividend ∧
          mfsesLongOf moat growth balance valuation sentiment dividend ≤ 20)) := by
  constructor
  · refine ⟨?_, ?_, ?_⟩ <;>
      simp only [mfsesShortOf, mfsesMidOf, mfsesLongOf] <;> norm_num
  · intro moat growth balance valuation sentiment dividend
    intro h1 h2 h3 h4 h5 h6 h7 h8 h9 h10 h11 h12
    simp only [mfsesShortOf, mfsesMidOf, mfsesLongOf]
    refine ⟨⟨?_, ?_⟩, ⟨?_, ?_⟩, ⟨?_, ?_⟩⟩ <;> linarith

/-- C5 witness: the bounds applied at the maximal in-range input (all six
factors 20). -/
theorem composite_weights_convex_witness :
    (0 ≤ mfsesShortOf 20 20 20 20 20 20 ∧
      mfsesShortOf 20 20 20 20 20 20 ≤ 20) ∧
    (0 ≤ mfsesMidOf 20 20 20 20 20 20 ∧ mfsesMidOf 20 20 20 20 20 20 ≤ 20) ∧
    (0 ≤ mfsesLongOf 20 20 20 20 20 20 ∧
      mfsesLongOf 20 20 20 20 20 20 ≤ 20) :=
  composite_weights_convex.2 20 20 20 20 20 20
    (by decide) (by decide) (by decide) (by decide) (by decide) (by decide)
    (by decide) (by decide) (by decide) (by decide) (by decide) (by decide)

/-! ## Claim C6: the Prioritizer's budget -/

/-- C6: `selectBatch` returns the first `min budget |due|` entries of the
ordered due list — never more than `budget`, exactly `budget` when more are
due — and what it returns is an initial segment: the selected batch followed
by the not-selected due instruments (which remain due, the selection
changing no state) recomposes the whole due list. -/
theorem select_batch_bounded :
    (∀ (db : Database) (now : Int) (budget : Nat),
      (selectBatch db now budget).length ≤ budget) ∧
    (∀ (db : Database) (now : Int) (budget : Nat),
      (selectBatch db now budget).length =
        min budget (dueSorted db now).length) ∧
    (∀ (db : Database) (now : Int) (budget : Nat),
      selectBatch db now budget ++ (dueSorted db now).drop budget =
        dueSorted db now) := by
  refine ⟨?_, ?_, ?_⟩
  · intro db now budget
    simp only [selectBatch, List.length_take]
    omega
  · intro db now budget
    simp [selectBatch, List.length_take]
  · intro db now budget
    simp [selectBatch, List.take_append_drop]

/-! ## Claim C2: the due-instruments query -/

/-- C2 counterexample: the claim says ties are broken deterministically so
two calls over an identical snapshot return the same list.  The SQL orders
only by the state-priority CASE and `next_update_due`; for two rows tied on
both keys it fixes no relative order.  Concretely, on a snapshot with two
due HOT rows tied on `next_update_due`, both orders satisfy everything
`get_tickers_due_for_update` guarantees, so the query does not determine a
unique result list. -/
theorem due_query_order_not_determined :
    IsDueQueryResult c2db 100 [c2rowA, c2rowB] ∧
    IsDueQueryResult c2db 100 [c2rowB, c2rowA] ∧
    ([c2rowA, c2rowB] : List StockStateRow) ≠ [c2rowB, c2rowA] := by
  refine ⟨⟨?_, ?_⟩, ⟨?_, ?_⟩, ?_⟩ <;> decide

/-- C2 as amended: every result of `get_tickers_due_for_update` holds
exactly the state rows of active tickers whose `next_update_due` has
passed, ordered by state priority (HOT, WARM, COLD, FROZEN) and then by
`next_update_due` ascending; the canonical execution `dueSorted` is such a
result.  The relative order of rows tied on both keys is not determined by
the query, so call-to-call equality of the full list is not guaranteed. -/
theorem due_query_membership_and_order :
    (∀ (db : Database) (now : Int),
      IsDueQueryResult db now (dueSorted db now)) ∧
    (∀ (db : Database) (now : Int) (l : List StockStateRow),
      IsDueQueryResult db now l →
        ∀ r : StockStateRow, r ∈ l ↔
          (r ∈ db.stock_states ∧ tickerActive db r.ticker = true ∧
            r.next_update_due ≤ now)) := by
  constructor
  · intro db now
    constructor
    · exact List.mergeSort_perm (dueUnsorted db now) dueKeyLE
    · exact List.sorted_mergeSort dueKeyLE_trans dueKeyLE_total
        (dueUnsorted db now)
  · intro db now l hl r
    rw [hl.1.mem_iff]
    simp [dueUnsorted, List.mem_filter]

/-- C2 witness: the amended theorem applied to the concrete snapshot — the
canonical execution at time 100 is an admissible result, and membership of
the AAPL row in it follows from the filter conditions. -/
theorem due_query_membership_and_order_witness :
    c2rowA ∈ dueSorted c2db 100 :=
  (due_query_membership_and_order.2 c2db 100 (dueSorted c2db 100)
      (due_query_membership_and_order.1 c2db 100) c2rowA).mpr
    ⟨by decide, by decide, by decide⟩

/-! ## Claim C7: pipeline run lifecycle -/

/-- C7: a run is created in status running; the cycle performs exactly one
update of that run, setting a terminal status (one of success, partial,
failed — never back to running) together with `finished_at`, the duration,
the per-step counters and the error fields; rows of other runs are
untouched.  The modelled Orchestrator (`orchestrateCycle`) calls
`start_pipeline_run` once and `complete_pipeline_run` once, as the
specification prescribes. -/
theorem pipeline_run_lifecycle :
    ∀ (db : Database) (runType : String) (t0 t1 : Int) (fatal : Bool)
      (failures : Nat)
      (markov collected scored promoted demoted apiCalls apiErrors : Int)
      (msg step : Option String),
      validStatus (classifyRun fatal failures) = true ∧
      classifyRun fatal failures ≠ "running" ∧
      (start_pipeline_run db runType t0).1.pipeline_runs =
        db.pipeline_runs ++ [startRunRow (freshRunId db) runType t0] ∧
      (startRunRow (freshRunId db) runType t0).status = "running" ∧
      orchestrateCycle db runType t0 t1 fatal failures markov collected
          scored promoted demoted apiCalls apiErrors msg step =
        Except.ok { db with pipeline_runs := db.pipeline_runs ++
          [completeRunRow (startRunRow (freshRunId db) runType t0)
            (classifyRun fatal failures) markov collected scored promoted
            demoted apiCalls apiErrors msg step t1] } ∧
      (completeRunRow (startRunRow (freshRunId db) runType t0)
          (classifyRun fatal failures) markov collected scored promoted
          demoted apiCalls apiErrors msg step t1).status =
        classifyRun fatal failures ∧
      (completeRunRow (startRunRow (freshRunId db) runType t0)
          (classifyRun fatal failures) markov collected scored promoted
          demoted apiCalls apiErrors msg step t1).finished_at = some t1 ∧
      (completeRunRow (startRunRow (freshRunId db) runType t0)
          (classifyRun fatal failures) markov collected scored promoted
          demoted apiCalls apiErrors msg step t1).duration_seconds =
        some (t1 - t0) ∧
      (completeRunRow (startRunRow (freshRunId db) runType t0)
          (classifyRun fatal failures) markov collected scored promoted
          demoted apiCalls apiErrors msg step t1).collected_count =
        collected ∧
      (completeRunRow (startRunRow (freshRunId db) runType t0)
          (classifyRun fatal failures) markov collected scored promoted
          demoted apiCalls apiErrors msg step t1).api_errors = apiErrors := by
  intro db runType t0 t1 fatal failures markov collected scored promoted
    demoted apiCalls apiErrors msg step
  have hvalid : validStatus (classifyRun fatal failures) = true := by
    unfold classifyRun validStatus
    split
    · simp
    · split <;> simp
  refine ⟨hvalid, ?_, rfl, rfl, ?_, rfl, rfl, ?_, rfl, rfl⟩
  · unfold classifyRun
    split
    · decide
    · split <;> decide
  · unfold orchestrateCycle
    show complete_pipeline_run
        { db with pipeline_runs :=
            db.pipeline_runs ++ [startRunRow (freshRunId db) runType t0] }
        (freshRunId db) (classifyRun fatal failures) markov collected scored
        promoted demoted apiCalls apiErrors msg step t1 = _
    unfold complete_pipeline_run
    have hnv : (!validStatus (classifyRun fatal failures)) = false := by
      rw [hvalid]
      rfl
    rw [hnv, Bool.and_false]
    simp only [Bool.false_eq_true, if_false]
    have hmap : (db.pipeline_runs ++ [startRunRow (freshRunId db) runType t0]).map
        (fun r => if r.id = freshRunId db then
          completeRunRow r (classifyRun fatal failures) markov collected
            scored promoted demoted apiCalls apiErrors msg step t1
        else r) =
        db.pipeline_runs ++
          [completeRunRow (startRunRow (freshRunId db) runType t0)
            (classifyRun fatal failures) markov collected scored promoted
            demoted apiCalls apiErrors msg step t1] := by
      rw [List.map_append]
      congr 1
      · exact map_self_of_fixed _ _ (fun r hr =>
          if_neg (Nat.ne_of_lt (id_lt_freshRunId db r hr)))
      · simp [startRunRow]
    rw [hmap]
  · simp [completeRunRow, startRunRow]

/-! ## Claim C8: the shared Polygon rate pacing -/

/-- C8 counterexample: the claim says the shared limiter keeps the program
within the API's stated ceiling (5 per rolling 60-second window on the free
tier, per the code's own comment) in any rolling 60-second window,
regardless of concurrency.  Six calls issued concurrently in one tick at
t = 100000 ms with a stale `lastCall = 0` start as the first at 100000 and
the other five simultaneously at 100150 — the `lastCall` write sits after
the `await`, so the five sleepers all paced off the same observed value —
putting six calls (five of them 0 ms apart) inside the rolling 60-second
window beginning at 100000, which exceeds the 5-per-minute ceiling. -/
theorem rate_pacing_exceeds_free_tier :
    sameTickBatchStarts 0 100000 6 =
      [100000, 100150, 100150, 100150, 100150, 100150] ∧
    callsInWindow (sameTickBatchStarts 0 100000 6) 100000 = 6 ∧
    polygonFreeTierPerMinute < 6 := by
  refine ⟨?_, ?_, ?_⟩ <;> decide

/-- C8 as amended: every `polyFetch` call goes through the one module-level
`lastCall` timestamp, and starts no earlier than requested and no earlier
than 150 ms after the `lastCall` value it observed; calls that do not
overlap — each requested after the previous one resumed, so each observes
the previous call's write — start at least 150 ms apart.  But because
`lastCall` is written only after the `await`, concurrent callers observe
the same stale value: every call of a same-tick batch issued within 150 ms
of the observed `lastCall` starts at the same instant, so the limiter
bounds neither concurrent call gaps nor the calls per rolling 60-second
window to the stated ceiling. -/
theorem rate_pacing_observed_gap :
    (∀ (lastRead req : Int),
      lastRead + 150 ≤ paceStart lastRead req ∧ req ≤ paceStart lastRead req) ∧
    (∀ (lastCall : Int) (reqs : List Int),
      (paceSchedule lastCall reqs).Chain' (fun a b => a + 150 ≤ b)) ∧
    (∀ (lastCall req : Int) (n : Nat), 2 ≤ n → req < lastCall + 150 →
      sameTickBatchStarts lastCall req n =
        List.replicate n (lastCall + 150)) := by
  refine ⟨?_, ?_, ?_⟩
  · intro lastRead req
    exact ⟨le_max_right _ _, le_max_left _ _⟩
  · intro lastCall reqs
    induction reqs generalizing lastCall with
    | nil => simp [paceSchedule]
    | cons req rest ih =>
      cases rest with
      | nil => simp [paceSchedule]
      | cons req2 rest2 =>
        simp only [paceSchedule]
        rw [List.chain'_cons]
        exact ⟨le_max_right _ _, ih _⟩
  · intro lastCall req n hn hreq
    obtain ⟨m, rfl⟩ : ∃ m, n = m + 1 := ⟨n - 1, by omega⟩
    simp only [sameTickBatchStarts]
    rw [if_neg (by omega)]
    simp only [paceStart]
    rw [max_eq_right (by omega : req ≤ lastCall + 150)]

/-- C8 witness: the amended theorem at concrete inputs — a call requested at
100 having observed `lastCall = 0` starts no earlier than 150, and a
same-tick batch of two calls requested at 100 (within 150 ms of the
observed value 0) starts both calls simultaneously at 150. -/
theorem rate_pacing_observed_gap_witness :
    (0 : Int) + 150 ≤ paceStart 0 100 ∧
    sameTickBatchStarts 0 100 2 = List.replicate 2 (150 : Int) :=
  ⟨(rate_pacing_observed_gap.1 0 100).1,
   rate_pacing_observed_gap.2.2 0 100 2 (by decide) (by decide)⟩
